import Mathlib

/-!
# Shallow embedding of the aws-shell engine (`awsshell/app.py`)

This file embeds the `AWSShell` class: its mutable session state, the
`cli` property (lazy build / rebuild of the interactive interface), the
configuration accessors (`match_fuzzy`, `enable_vi_bindings`,
`show_completion_columns`, `show_help`), `stop_input_and_refresh_cli`
(which raises `InputInterrupt`), one iteration of the `run` loop
(dispatch of a submitted line, the `InputInterrupt` catch, and the
`KeyboardInterrupt`/`EOFError` exit path), and `on_input_timeout`.

Python exceptions are modelled with `Except`: `.error st` is an
`InputInterrupt` escaping with the object in state `st`; `.ok (v, st)`
is a normal return of `v`.  Subprocess launches and redraw requests are
recorded as an `EngineAction` trace.  The interior of
`create_cli_interface`/`create_application` (layout, key bindings,
toolbar — `awsshell.ui`, `awsshell.keys`, not part of the engine file)
is modelled from the spec's InterfaceBuilder contract: the built
interface is a snapshot of the configuration current at build time
(`app.py` itself passes `show_completion_columns()` and reads
`config_section['theme']` at build; the key-binding mode and help pane
are read from configuration by the builder).
-/

/-- The `aws-shell` section of the config store: boolean settings read
with `as_bool`, plus the `theme` string. -/
structure ConfigSection where
  match_fuzzy : Bool
  enable_vi_bindings : Bool
  show_completion_columns : Bool
  show_help : Bool
  theme : String
deriving DecidableEq

/-- A built `CommandLineInterface`.  `snapshot` is the configuration the
surface was assembled from (see the module comment); `clidocsBuffer` is
the text of the read-only `clidocs` buffer; `redrawCount` counts
`request_redraw` calls on this instance. -/
structure Interface where
  snapshot : ConfigSection
  displayCompletionsInColumns : Bool
  clidocsBuffer : String
  redrawCount : Nat
deriving DecidableEq

/-- The mutable attributes of the `AWSShell` object (plus
`model_completer.match_fuzzy`, which `_init_config` and `match_fuzzy`
write through, and a flag recording whether `config_obj.write()` ran). -/
structure ShellState where
  modelCompleterMatchFuzzy : Bool
  configSection : ConfigSection
  currentDocs : String
  refreshCli : Bool
  cli : Option Interface
  history : List String
  configPersisted : Bool
deriving DecidableEq

/-- Externally observable effects of one engine step, in program order. -/
inductive EngineAction where
  | clearDocsPanel
  | redraw
  | execEditor (tempFileBody : String)
  | execShell (cmd : String)
  | persistConfig
deriving DecidableEq

/-- What `cli.run()` produced in one iteration of `AWSShell.run`:
a submitted line, an `InputInterrupt` escaping from a toggle key
binding, or `KeyboardInterrupt`/`EOFError` from the terminal. -/
inductive Event where
  | line (text : String)
  | toggle (w : Nat) (v : Bool)
  | eof
deriving DecidableEq

/-- Outcome of one iteration of the `while True` loop in `AWSShell.run`.
`next` carries the run-local variable `all_commands` (a Python function
local that survives across iterations); `halted` is `break`; `crashed`
is an unhandled exception (the `NameError` on an unbound
`all_commands`). -/
inductive StepResult where
  | next (s : ShellState) (allCommands : Option String) (actions : List EngineAction)
  | halted (s : ShellState) (actions : List EngineAction)
  | crashed (s : ShellState) (actions : List EngineAction)
deriving DecidableEq

/-- The four configuration accessors, for the uniform invocation view. -/
inductive Setting where
  | matchFuzzy
  | enableViBindings
  | showCompletionColumns
  | showHelp
deriving DecidableEq

/-- External `DocsProvider` contract (`self._docs`). -/
structure DocsProvider where
  extract_param : String → String → String
  extract_description : String → String

/-- External `Completer` contract: `current_command` and `last_option`
(the empty string is Python-falsy `''`/`None`, i.e. absent). -/
structure CompleterState where
  current_command : String
  last_option : String
deriving DecidableEq

/-! ## Python string primitives

Executable models of the `str` methods the engine uses, over the
character list of the string (so every closed instance evaluates by
kernel reduction).  Python's whitespace set is modelled by
`Char.isWhitespace` (space, tab, carriage return, newline — the
characters the spec's test vectors use). -/

/-- Python `s.strip()`: remove leading and trailing whitespace. -/
def pyStrip (s : String) : String :=
  ⟨((s.data.dropWhile Char.isWhitespace).reverse.dropWhile
      Char.isWhitespace).reverse⟩

/-- Python `s.startswith(p)`. -/
def pyStartsWith (s p : String) : Bool :=
  p.data.isPrefixOf s.data

/-- Python `s[n:]`: drop the first `n` characters. -/
def pyDrop (s : String) (n : Nat) : String :=
  ⟨s.data.drop n⟩

/-- Helper for `pyWords`: accumulate the current word (reversed). -/
def pyWordsAux : List Char → List Char → List String
  | [], [] => []
  | [], cur => [⟨cur.reverse⟩]
  | c :: cs, cur =>
      if c.isWhitespace then
        match cur with
        | [] => pyWordsAux cs []
        | _ => ⟨cur.reverse⟩ :: pyWordsAux cs []
      else pyWordsAux cs (c :: cur)

/-- Python `s.split()` with no argument: split on whitespace runs,
dropping empty pieces. -/
def pyWords (s : String) : List String :=
  pyWordsAux s.data []

/-- Python `sep.join(xs)`. -/
def pyJoin (sep : String) : List String → String
  | [] => ""
  | [x] => x
  | x :: xs => x ++ sep ++ pyJoin sep xs

namespace AWSShell

/-- `cli.request_redraw()`. -/
def requestRedraw (c : Interface) : Interface :=
  { c with redrawCount := c.redrawCount + 1 }

/-- `create_cli_interface(self.show_completion_columns())`: assemble a
fresh interface from the current configuration (columns flag passed as
argument; the rest of the snapshot per the InterfaceBuilder contract,
see the module comment).  The `clidocs` buffer starts empty
(`Buffer(read_only=True)`), no redraw requested yet. -/
def createCliInterface (s : ShellState) : Interface :=
  { snapshot := s.configSection
    displayCompletionsInColumns := s.configSection.show_completion_columns
    clidocsBuffer := ""
    redrawCount := 0 }

/-- The `cli` property: `if self._cli is None or self.refresh_cli:`
rebuild and clear `refresh_cli`; `return self._cli`. -/
def getCli (s : ShellState) : Interface × ShellState :=
  match s.cli, s.refreshCli with
  | some c, false => (c, s)
  | _, _ =>
    let c := createCliInterface s
    (c, { s with cli := some c, refreshCli := false })

/-- `stop_input_and_refresh_cli`: set `self.refresh_cli = True`, then
`self.cli.request_redraw()` — the property access rebuilds the cli
(consuming the flag) before the redraw — then `raise InputInterrupt`.
The raise itself is the `.error` constructor at the call sites. -/
def stop_input_and_refresh_cli (s : ShellState) : ShellState :=
  let s1 := { s with refreshCli := true }
  let (c, s2) := getCli s1
  { s2 with cli := some (requestRedraw c) }

/-- `match_fuzzy(self, match_fuzzy=None)`: if a value is given, write it
to `self.model_completer.match_fuzzy` and to the config section; return
`config_section.as_bool('match_fuzzy')`.  This accessor has no
`refresh_ui` parameter and its body contains no raise, so every path
returns `.ok`. -/
def match_fuzzy (s : ShellState) (v : Option Bool) :
    Except ShellState (Bool × ShellState) :=
  let s1 :=
    match v with
    | some b =>
        { s with modelCompleterMatchFuzzy := b
                 configSection := { s.configSection with match_fuzzy := b } }
    | none => s
  .ok (s1.configSection.match_fuzzy, s1)

/-- `enable_vi_bindings(self, enable_vi_bindings=None, refresh_ui=False)`:
if a value is given, write the config section; if additionally
`refresh_ui`, call `stop_input_and_refresh_cli` (which raises);
otherwise return `config_section.as_bool('enable_vi_bindings')`. -/
def enable_vi_bindings (s : ShellState) (v : Option Bool) (refresh_ui : Bool) :
    Except ShellState (Bool × ShellState) :=
  match v with
  | some b =>
      let s1 := { s with configSection :=
                    { s.configSection with enable_vi_bindings := b } }
      if refresh_ui then .error (stop_input_and_refresh_cli s1)
      else .ok (s1.configSection.enable_vi_bindings, s1)
  | none => .ok (s.configSection.enable_vi_bindings, s)

/-- `show_completion_columns(self, show_completion_columns=None,
refresh_ui=False)`: same shape as `enable_vi_bindings`. -/
def show_completion_columns (s : ShellState) (v : Option Bool)
    (refresh_ui : Bool) : Except ShellState (Bool × ShellState) :=
  match v with
  | some b =>
      let s1 := { s with configSection :=
                    { s.configSection with show_completion_columns := b } }
      if refresh_ui then .error (stop_input_and_refresh_cli s1)
      else .ok (s1.configSection.show_completion_columns, s1)
  | none => .ok (s.configSection.show_completion_columns, s)

/-- `show_help(self, show_help=None, refresh_ui=False)`: same shape as
`enable_vi_bindings`. -/
def show_help (s : ShellState) (v : Option Bool) (refresh_ui : Bool) :
    Except ShellState (Bool × ShellState) :=
  match v with
  | some b =>
      let s1 := { s with configSection :=
                    { s.configSection with show_help := b } }
      if refresh_ui then .error (stop_input_and_refresh_cli s1)
      else .ok (s1.configSection.show_help, s1)
  | none => .ok (s.configSection.show_help, s)

/-- Uniform invocation view over the four accessors, as wired into
`KeyManager` and `Toolbar`.  The Python signature of `match_fuzzy` has
no `refresh_ui` parameter, so for it the flag argument cannot be passed
and is dropped. -/
def invokeAccessor (w : Setting) (s : ShellState) (v : Option Bool)
    (refresh_ui : Bool) : Except ShellState (Bool × ShellState) :=
  match w with
  | .matchFuzzy => match_fuzzy s v
  | .enableViBindings => enable_vi_bindings s v refresh_ui
  | .showCompletionColumns => show_completion_columns s v refresh_ui
  | .showHelp => show_help s v refresh_ui

/-- Number of `InputInterrupt` raises an accessor call performed:
one when it escaped with `.error`, zero on normal return. -/
def signalCount : Except ShellState (Bool × ShellState) → Nat
  | .error _ => 1
  | .ok _ => 0

/-- The `.edit` synthetic script:
`'\n'.join(['aws ' + h for h in list(self.history) if not
h.startswith(('.', '!'))])`. -/
def editBody (history : List String) : String :=
  pyJoin "\n"
    ((history.filter
        (fun h => !(pyStartsWith h "." || pyStartsWith h "!"))).map
      (fun h => "aws " ++ h))

/-- `'.'.join(command.split()).encode('utf-8')`: Python's `str.split()`
with no argument splits on whitespace runs and drops empty pieces. -/
def keyName (command : String) : String :=
  pyJoin "." (pyWords command)

/-- Map a toggle event's index to the accessor it invokes
(key bindings F2/F3/F4/F5 in order). -/
def settingOfNat (w : Nat) : Setting :=
  match w with
  | 0 => .matchFuzzy
  | 1 => .enableViBindings
  | 2 => .showCompletionColumns
  | _ => .showHelp

/-- One iteration of the `while True:` loop in `AWSShell.run`.
`allCommands` is the run-local `all_commands` variable carried between
iterations.  The iteration begins with the `self.cli` property access in
`document = self.cli.run()`; then:
* `except InputInterrupt: pass` — the toggle branch;
* `except (KeyboardInterrupt, EOFError): self.config_obj.write(); break`;
* otherwise dispatch `text` exactly as the source does.  Note that the
  `with tempfile...` block sits under `if text.startswith('.')`, not
  under `if text.startswith('.edit')`, so it runs for every
  dot-command; if `all_commands` was never assigned, that is an
  unhandled `NameError` (`crashed`). -/
def runStep (s : ShellState) (allCommands : Option String) (e : Event) :
    StepResult :=
  let (_, s1) := getCli s
  match e with
  | .eof =>
      .halted { s1 with configPersisted := true } [.persistConfig]
  | .toggle w v =>
      match invokeAccessor (settingOfNat w) s1 (some v) true with
      | .error s2 => .next s2 allCommands []
      | .ok (_, s2) => .next s2 allCommands []
  | .line text =>
      if pyStrip text = "quit" || pyStrip text = "exit" then
        .halted s1 []
      else if pyStartsWith text "." then
        let ac :=
          if pyStartsWith text ".edit" then some (editBody s1.history)
          else allCommands
        match ac with
        | none => .crashed s1 []
        | some body => .next s1 ac [.execEditor body]
      else
        let full_cmd :=
          if pyStartsWith text "!" then pyDrop text 1
          else "aws " ++ text
        let s2 := { s1 with
                    currentDocs := ""
                    cli := s1.cli.map
                      (fun c => requestRedraw { c with clidocsBuffer := "" }) }
        .next s2 allCommands [.clearDocsPanel, .redraw, .execShell full_cmd]

/-- `on_input_timeout(self, cli)`.  `inputText` is
`cli.current_buffer.document.text`; `comp` the completer's
`current_command`/`last_option`; `docs` the `DocsProvider`.  Returns the
new state and the emitted redraw requests.  `if not self.show_help():
return` is the zero-argument (pure read) accessor call. -/
def on_input_timeout (s : ShellState) (inputText : String)
    (comp : CompleterState) (docs : DocsProvider) :
    ShellState × List EngineAction :=
  if !s.configSection.show_help then (s, [])
  else
    let newDocs :=
      if pyStrip inputText ≠ "" then
        let command := comp.current_command
        let key_name := keyName command
        let last_option := comp.last_option
        if last_option ≠ "" then docs.extract_param key_name last_option
        else docs.extract_description key_name
      else ""
    let s1 := { s with
                currentDocs := newDocs
                cli := s.cli.map (fun c => { c with clidocsBuffer := newDocs }) }
    (s1, [.redraw])

/-- Did this iteration exit the loop by `break`? -/
def isHalted : StepResult → Bool
  | .halted _ _ => true
  | _ => false

/-- The action trace of a step result. -/
def stepActions : StepResult → List EngineAction
  | .next _ _ as => as
  | .halted _ as => as
  | .crashed _ as => as

end AWSShell

/-- A concrete configuration for closed evaluations. -/
def defaultConfig : ConfigSection :=
  { match_fuzzy := true
    enable_vi_bindings := false
    show_completion_columns := false
    show_help := true
    theme := "vim" }

/-- A concrete shell state with a live interface and no pending rebuild. -/
def sampleState : ShellState :=
  { modelCompleterMatchFuzzy := true
    configSection := defaultConfig
    currentDocs := ""
    refreshCli := false
    cli := some { snapshot := defaultConfig
                  displayCompletionsInColumns := false
                  clidocsBuffer := ""
                  redrawCount := 0 }
    history := []
    configPersisted := false }

/-- `sampleState` with the history from the `.edit` test vector. -/
def editHistoryState : ShellState :=
  { sampleState with
    history := ["ec2 describe-instances", "s3 ls", ".edit", "!ls"] }

/-- C3: dispatching `.edit` builds the synthetic script by taking every
history entry that does not start with `.` or `!`, prefixing each with
`aws ` and joining with newlines, and launches the editor on a temp file
with exactly that body; on the history `["ec2 describe-instances",
"s3 ls", ".edit", "!ls"]` the body is
`"aws ec2 describe-instances\naws s3 ls"`. -/
theorem edit_builds_script_from_history (hist : List String)
    (ac : Option String) :
    AWSShell.runStep { sampleState with history := hist } ac (.line ".edit")
      = .next { sampleState with history := hist }
          (some (AWSShell.editBody hist))
          [.execEditor (AWSShell.editBody hist)]
    ∧ AWSShell.editBody ["ec2 describe-instances", "s3 ls", ".edit", "!ls"]
      = "aws ec2 describe-instances\naws s3 ls" := by
  constructor
  · rfl
  · rfl

/-- C4 (code bug): the `with tempfile...` block in `run` is indented
under `if text.startswith('.')`, not under `if text.startswith('.edit')`,
so a dot-command other than `.edit` is not a no-op: as the first
dot-command of the session it reads the unbound local `all_commands`
(an unhandled `NameError`, `crashed`); after an earlier `.edit` it
launches the editor again on the stale body. -/
theorem dot_command_not_noop :
    AWSShell.runStep sampleState none (.line ".foo")
      = .crashed sampleState []
    ∧ AWSShell.runStep sampleState (some "aws stale") (.line ".foo")
      = .next sampleState (some "aws stale")
          [.execEditor "aws stale"] := ⟨rfl, rfl⟩

/-- C9: when `show_help` is false, `on_input_timeout` returns before
touching anything: the state (in particular `current_docs` and the
`clidocs` buffer) is unchanged and no redraw is requested, for any
buffer content. -/
theorem idle_timeout_without_help_is_noop (s : ShellState) (text : String)
    (comp : CompleterState) (docs : DocsProvider)
    (h : s.configSection.show_help = false) :
    AWSShell.on_input_timeout s text comp docs = (s, []) := by
  simp [AWSShell.on_input_timeout, h]

/-- Witness for C9 at a concrete state and buffer. -/
theorem idle_timeout_without_help_is_noop_witness :
    AWSShell.on_input_timeout
        { sampleState with
          configSection := { defaultConfig with show_help := false } }
        "ec2 describe-instances --filt"
        { current_command := "ec2 describe-instances",
          last_option := "--filters" }
        { extract_param := fun k o => k ++ "|" ++ o,
          extract_description := fun k => "desc:" ++ k }
      = ({ sampleState with
           configSection := { defaultConfig with show_help := false } },
         []) :=
  idle_timeout_without_help_is_noop _ _ _ _ rfl

/-- C10: calling `match_fuzzy` with a new value writes it both to the
config section and directly to `model_completer.match_fuzzy`, leaves
the live cli and the `refresh_cli` flag untouched (no rebuild), returns
the new value, and never raises `InputInterrupt`. -/
theorem match_fuzzy_writes_completer_without_interrupt
    (s : ShellState) (v : Bool) :
    AWSShell.match_fuzzy s (some v)
      = .ok (v, { s with
                  modelCompleterMatchFuzzy := v
                  configSection := { s.configSection with match_fuzzy := v } })
    ∧ AWSShell.signalCount (AWSShell.match_fuzzy s (some v)) = 0 :=
  ⟨rfl, rfl⟩

/-- C5: a submitted line breaks the read/dispatch loop exactly when its
whitespace-stripped form is `quit` or `exit`; any other line (including
ones merely containing those words) is dispatched or crashes, but does
not signal engine termination. -/
theorem quit_exit_terminate_iff (s : ShellState) (ac : Option String)
    (text : String) :
    AWSShell.isHalted (AWSShell.runStep s ac (.line text)) = true
      ↔ (pyStrip text = "quit" ∨ pyStrip text = "exit") := by
  have h : AWSShell.isHalted (AWSShell.runStep s ac (.line text))
      = (decide (pyStrip text = "quit") || decide (pyStrip text = "exit")) := by
    rcases s with ⟨mf, cfg, cd, rc, cli, hist, cp⟩
    cases cli <;> cases rc <;>
      simp only [AWSShell.runStep, AWSShell.getCli] <;>
      by_cases h1 : pyStrip text = "quit" <;>
      by_cases h2 : pyStrip text = "exit" <;>
        simp [h1, h2] <;>
        first
          | rfl
          | (split <;> first | rfl | (split <;> rfl))
  rw [h]
  simp

/-- C6: `config_obj.write()` runs exactly on the
`KeyboardInterrupt`/`EOFError` exit path; a stripped `quit`/`exit` line
breaks the loop with no action at all (no persistence). -/
theorem config_persisted_only_on_interrupt_path (s : ShellState)
    (ac : Option String) (e : Event) :
    (EngineAction.persistConfig ∈
        AWSShell.stepActions (AWSShell.runStep s ac e) ↔ e = .eof)
    ∧ AWSShell.runStep s ac .eof
        = .halted { (AWSShell.getCli s).2 with configPersisted := true }
            [.persistConfig]
    ∧ (∀ text, (pyStrip text = "quit" ∨ pyStrip text = "exit") →
        AWSShell.runStep s ac (.line text)
          = .halted (AWSShell.getCli s).2 []) := by
  refine ⟨?_, ?_, ?_⟩
  · cases e with
    | eof =>
        rcases s with ⟨mf, cfg, cd, rc, cli, hist, cp⟩
        cases cli <;> cases rc <;>
          simp [AWSShell.runStep, AWSShell.getCli, AWSShell.stepActions]
    | toggle w v =>
        rcases s with ⟨mf, cfg, cd, rc, cli, hist, cp⟩
        cases cli <;> cases rc <;>
          simp only [AWSShell.runStep, AWSShell.getCli] <;>
          (split <;> simp [AWSShell.stepActions])
    | line text =>
        rcases s with ⟨mf, cfg, cd, rc, cli, hist, cp⟩
        cases cli <;> cases rc <;>
          simp only [AWSShell.runStep, AWSShell.getCli] <;>
          by_cases h1 : pyStrip text = "quit" <;>
          by_cases h2 : pyStrip text = "exit" <;>
            simp [h1, h2] <;>
            first
              | (simp [AWSShell.stepActions]; done)
              | (split <;> first
                  | (simp [AWSShell.stepActions]; done)
                  | (split <;> simp [AWSShell.stepActions]))
  · rcases s with ⟨mf, cfg, cd, rc, cli, hist, cp⟩
    cases cli <;> cases rc <;> rfl
  · intro text h
    rcases s with ⟨mf, cfg, cd, rc, cli, hist, cp⟩
    rcases h with h | h <;>
      cases cli <;> cases rc <;>
        simp [AWSShell.runStep, AWSShell.getCli, h]

/-- Witness for C6: `" quit "` breaks the loop without persisting,
discharging the stripped-line hypothesis concretely. -/
theorem config_persisted_only_on_interrupt_path_witness :
    AWSShell.runStep sampleState none (.line " quit ")
      = .halted sampleState [] :=
  (config_persisted_only_on_interrupt_path sampleState none
      (.line " quit ")).2.2 " quit " (Or.inl (by decide))

/-- C7: a `!`-line dispatches exactly the remainder after the `!` as a
shell command; any other non-dot, non-quit/exit line dispatches
`aws ` prepended to the line; in both cases `current_docs` and the
`clidocs` buffer are cleared and a redraw requested before the launch
(the action trace lists the clear before `execShell`).  The hypotheses
mirror the dispatcher's control flow: the line was not a stripped
`quit`/`exit` and not a dot-command. -/
theorem bang_and_passthrough_dispatch (s : ShellState) (ac : Option String)
    (text : String) (h1 : pyStrip text ≠ "quit") (h2 : pyStrip text ≠ "exit")
    (h3 : pyStartsWith text "." = false) :
    (pyStartsWith text "!" = true →
      AWSShell.runStep s ac (.line text)
        = .next { (AWSShell.getCli s).2 with
                  currentDocs := ""
                  cli := (AWSShell.getCli s).2.cli.map
                    (fun c => AWSShell.requestRedraw
                      { c with clidocsBuffer := "" }) }
            ac [.clearDocsPanel, .redraw, .execShell (pyDrop text 1)])
    ∧ (pyStartsWith text "!" = false →
      AWSShell.runStep s ac (.line text)
        = .next { (AWSShell.getCli s).2 with
                  currentDocs := ""
                  cli := (AWSShell.getCli s).2.cli.map
                    (fun c => AWSShell.requestRedraw
                      { c with clidocsBuffer := "" }) }
            ac [.clearDocsPanel, .redraw, .execShell ("aws " ++ text)]) := by
  constructor <;>
    · intro h4
      rcases s with ⟨mf, cfg, cd, rc, cli, hist, cp⟩
      cases cli <;> cases rc <;>
        simp [AWSShell.runStep, AWSShell.getCli, h1, h2, h3, h4]

/-- Witness for C7 at `"!ls"` (shell escape) and `"s3 ls"`
(passthrough), discharging every hypothesis concretely. -/
theorem bang_and_passthrough_dispatch_witness :
    AWSShell.runStep sampleState none (.line "!ls")
      = .next { sampleState with
                currentDocs := ""
                cli := sampleState.cli.map
                  (fun c => AWSShell.requestRedraw
                    { c with clidocsBuffer := "" }) }
          none [.clearDocsPanel, .redraw, .execShell "ls"]
    ∧ AWSShell.runStep sampleState none (.line "s3 ls")
      = .next { sampleState with
                currentDocs := ""
                cli := sampleState.cli.map
                  (fun c => AWSShell.requestRedraw
                    { c with clidocsBuffer := "" }) }
          none [.clearDocsPanel, .redraw, .execShell "aws s3 ls"] :=
  ⟨(bang_and_passthrough_dispatch sampleState none "!ls" (by decide)
      (by decide) (by decide)).1 (by decide),
   (bang_and_passthrough_dispatch sampleState none "s3 ls" (by decide)
      (by decide) (by decide)).2 (by decide)⟩

/-- C1: for each accessor that has the `refresh_ui` flag
(`enable_vi_bindings`, `show_completion_columns`, `show_help`), a call
with a new value and the flag set raises exactly one `InputInterrupt`
(`signalCount = 1`); the run loop catches it and dispatches nothing
(empty action trace); the accessor set `refresh_cli`, whose consumption
rebuilt the interface from the already-updated configuration (the
`refreshCli := true` state fed to `createCliInterface`), so the next
interface the `cli` property hands out is that fresh rebuild and its
snapshot carries the new value — never the old one.  (`match_fuzzy` has
no such flag and cannot be invoked this way.) -/
theorem toggle_with_apply_raises_once_and_rebuilds (s : ShellState)
    (v : Bool) (ac : Option String) :
    (AWSShell.signalCount
        (AWSShell.enable_vi_bindings (AWSShell.getCli s).2 (some v) true) = 1
     ∧ ∃ s2 c, AWSShell.runStep s ac (.toggle 1 v) = .next s2 ac []
        ∧ s2.cli = some c
        ∧ c = AWSShell.requestRedraw (AWSShell.createCliInterface
            { (AWSShell.getCli s).2 with
              configSection := { (AWSShell.getCli s).2.configSection with
                                 enable_vi_bindings := v }
              refreshCli := true })
        ∧ c.snapshot.enable_vi_bindings = v
        ∧ AWSShell.getCli s2 = (c, s2))
    ∧ (AWSShell.signalCount
        (AWSShell.show_completion_columns (AWSShell.getCli s).2 (some v) true)
          = 1
     ∧ ∃ s2 c, AWSShell.runStep s ac (.toggle 2 v) = .next s2 ac []
        ∧ s2.cli = some c
        ∧ c = AWSShell.requestRedraw (AWSShell.createCliInterface
            { (AWSShell.getCli s).2 with
              configSection := { (AWSShell.getCli s).2.configSection with
                                 show_completion_columns := v }
              refreshCli := true })
        ∧ c.snapshot.show_completion_columns = v
        ∧ AWSShell.getCli s2 = (c, s2))
    ∧ (AWSShell.signalCount
        (AWSShell.show_help (AWSShell.getCli s).2 (some v) true) = 1
     ∧ ∃ s2 c, AWSShell.runStep s ac (.toggle 3 v) = .next s2 ac []
        ∧ s2.cli = some c
        ∧ c = AWSShell.requestRedraw (AWSShell.createCliInterface
            { (AWSShell.getCli s).2 with
              configSection := { (AWSShell.getCli s).2.configSection with
                                 show_help := v }
              refreshCli := true })
        ∧ c.snapshot.show_help = v
        ∧ AWSShell.getCli s2 = (c, s2)) := by
  rcases s with ⟨mf, cfg, cd, rc, cli, hist, cp⟩
  cases cli <;> cases rc <;>
    exact ⟨⟨rfl, _, _, rfl, rfl, rfl, rfl, rfl⟩,
           ⟨rfl, _, _, rfl, rfl, rfl, rfl, rfl⟩,
           ⟨rfl, _, _, rfl, rfl, rfl, rfl, rfl⟩⟩

/-- C2 counterexample: the claim says every one of the four settings —
including `match_fuzzy` — takes an optional apply-immediately flag and
raises the cancellation signal when it is set.  `match_fuzzy`'s Python
signature has no `refresh_ui` parameter, so in the uniform invocation
view the flag is dropped and a write call with the flag "set" raises no
signal at all. -/
theorem match_fuzzy_lacks_apply_flag_counterexample :
    ¬ AWSShell.signalCount
        (AWSShell.invokeAccessor Setting.matchFuzzy sampleState
          (some true) true) = 1 := by
  decide

/-- C2 amended: `enable_vi_bindings`, `show_completion_columns` and
`show_help` are dual-purpose accessors with an optional value and an
optional `refresh_ui` flag — no value: pure read; value without flag:
config write, normal return; value with flag: config write, then a
redraw of the (rebuilt) interface, then exactly one cancellation
signal.  `match_fuzzy` takes only the optional value: it writes both
the config section and the completer's fuzzy mode and never raises. -/
theorem dual_purpose_accessors_amended (s : ShellState) (v ru : Bool) :
    (AWSShell.match_fuzzy s none
        = .ok (s.configSection.match_fuzzy, s)
     ∧ AWSShell.enable_vi_bindings s none ru
        = .ok (s.configSection.enable_vi_bindings, s)
     ∧ AWSShell.show_completion_columns s none ru
        = .ok (s.configSection.show_completion_columns, s)
     ∧ AWSShell.show_help s none ru
        = .ok (s.configSection.show_help, s))
    ∧ (AWSShell.signalCount (AWSShell.enable_vi_bindings s (some v) true) = 1
       ∧ ∃ s' c, AWSShell.enable_vi_bindings s (some v) true = .error s'
          ∧ s'.configSection.enable_vi_bindings = v
          ∧ s'.cli = some c ∧ c.redrawCount = 1)
    ∧ (AWSShell.signalCount
          (AWSShell.show_completion_columns s (some v) true) = 1
       ∧ ∃ s' c, AWSShell.show_completion_columns s (some v) true = .error s'
          ∧ s'.configSection.show_completion_columns = v
          ∧ s'.cli = some c ∧ c.redrawCount = 1)
    ∧ (AWSShell.signalCount (AWSShell.show_help s (some v) true) = 1
       ∧ ∃ s' c, AWSShell.show_help s (some v) true = .error s'
          ∧ s'.configSection.show_help = v
          ∧ s'.cli = some c ∧ c.redrawCount = 1)
    ∧ AWSShell.enable_vi_bindings s (some v) false
        = .ok (v, { s with configSection :=
                      { s.configSection with enable_vi_bindings := v } })
    ∧ AWSShell.show_completion_columns s (some v) false
        = .ok (v, { s with configSection :=
                      { s.configSection with show_completion_columns := v } })
    ∧ AWSShell.show_help s (some v) false
        = .ok (v, { s with configSection :=
                      { s.configSection with show_help := v } })
    ∧ AWSShell.match_fuzzy s (some v)
        = .ok (v, { s with
                    modelCompleterMatchFuzzy := v
                    configSection := { s.configSection with match_fuzzy := v } })
    ∧ AWSShell.signalCount (AWSShell.match_fuzzy s (some v)) = 0 := by
  rcases s with ⟨mf, cfg, cd, rc, cli, hist, cp⟩
  cases cli <;>
    exact ⟨⟨rfl, rfl, rfl, rfl⟩,
           ⟨rfl, _, _, rfl, rfl, rfl, rfl⟩,
           ⟨rfl, _, _, rfl, rfl, rfl, rfl⟩,
           ⟨rfl, _, _, rfl, rfl, rfl, rfl⟩,
           rfl, rfl, rfl, rfl, rfl⟩

/-- A docs provider that records its arguments, to observe exactly which
key the engine passes to `extract_param`/`extract_description`. -/
def probeDocs : DocsProvider :=
  { extract_param := fun k o => k ++ "|" ++ o
    extract_description := fun k => "desc:" ++ k }

/-- C8 counterexample: on buffer `"ec2 describe-instances --filt"` with
`current_command = "ec2 describe-instances"` and
`last_option = "--filters"`, the handler passes the dotted key
`'.'.join(command.split())` — `"ec2.describe-instances"` — to
`extract_param`, not `current_command` verbatim, so DocPanelContent is
not `extract_param("ec2 describe-instances", "--filters")`. -/
theorem idle_timeout_key_is_dotted_counterexample :
    (AWSShell.on_input_timeout sampleState "ec2 describe-instances --filt"
        { current_command := "ec2 describe-instances"
          last_option := "--filters" }
        probeDocs).1.currentDocs
      = probeDocs.extract_param "ec2.describe-instances" "--filters"
    ∧ (AWSShell.on_input_timeout sampleState "ec2 describe-instances --filt"
        { current_command := "ec2 describe-instances"
          last_option := "--filters" }
        probeDocs).1.currentDocs
      ≠ probeDocs.extract_param "ec2 describe-instances" "--filters" := by
  exact ⟨rfl, by decide⟩

/-- C8 amended: on idle timeout with `show_help` true — empty stripped
buffer sets DocPanelContent to empty; a reported last option sets it to
`extract_param(key, option)` and otherwise to
`extract_description(key)`, where `key` is `current_command` with its
whitespace-separated tokens joined by dots (in particular
`"ec2.describe-instances"` for `"ec2 describe-instances"`); the
`clidocs` buffer is reset to the new content and a redraw is always
requested. -/
theorem idle_timeout_updates_doc_panel (s : ShellState) (text : String)
    (comp : CompleterState) (docs : DocsProvider)
    (h : s.configSection.show_help = true) :
    (pyStrip text = "" →
      (AWSShell.on_input_timeout s text comp docs).1.currentDocs = "")
    ∧ (pyStrip text ≠ "" → comp.last_option ≠ "" →
      (AWSShell.on_input_timeout s text comp docs).1.currentDocs
        = docs.extract_param (AWSShell.keyName comp.current_command)
            comp.last_option)
    ∧ (pyStrip text ≠ "" → comp.last_option = "" →
      (AWSShell.on_input_timeout s text comp docs).1.currentDocs
        = docs.extract_description (AWSShell.keyName comp.current_command))
    ∧ (AWSShell.on_input_timeout s text comp docs).2 = [.redraw]
    ∧ (AWSShell.on_input_timeout s text comp docs).1.cli
        = s.cli.map (fun c =>
            { c with clidocsBuffer :=
                (AWSShell.on_input_timeout s text comp docs).1.currentDocs })
    ∧ AWSShell.keyName "ec2 describe-instances" = "ec2.describe-instances"
    := by
  refine ⟨?_, ?_, ?_, ?_, ?_, by decide⟩
  · intro he
    simp [AWSShell.on_input_timeout, h, he]
  · intro he ho
    simp [AWSShell.on_input_timeout, h, he, ho]
  · intro he ho
    simp [AWSShell.on_input_timeout, h, he, ho]
  · simp [AWSShell.on_input_timeout, h]
  · by_cases he : pyStrip text = "" <;>
      by_cases ho : comp.last_option = "" <;>
        simp [AWSShell.on_input_timeout, h, he, ho]

/-- Witness for C8 (amended) on the spec's concrete inputs. -/
theorem idle_timeout_updates_doc_panel_witness :
    (AWSShell.on_input_timeout sampleState "ec2 describe-instances --filt"
        { current_command := "ec2 describe-instances"
          last_option := "--filters" }
        probeDocs).1.currentDocs
      = probeDocs.extract_param
          (AWSShell.keyName "ec2 describe-instances") "--filters" :=
  (idle_timeout_updates_doc_panel sampleState "ec2 describe-instances --filt"
      { current_command := "ec2 describe-instances"
        last_option := "--filters" }
      probeDocs rfl).2.1 (by decide) (by decide)
